import Mathlib

/-!
Verification of the adjacency-matrix visualization repository
(files matrix_gen.py and matrix_viz.py).

The Python sources are embedded shallowly:
* numpy random draws become explicit oracle functions producing rationals
  (np.random.random yields a fresh uniform value per array cell / call site);
* Python floats become rationals;
* numpy integer / float arrays become functions or lists over Nat / Int / Rat;
* code that raises becomes Option / Except, with an error type mirroring the
  Python exception classes that can actually be raised;
* the VTK / trame interaction callbacks become pure transition functions on an
  explicit view-state record.

The file has two parts: first all definitions (the embedding), then the
lemmas and theorems about them.
-/

/-- The Python exceptions relevant to this code base.  `keyError name` is the
KeyError raised by matplotlib's ColormapRegistry lookup `colormaps[name]` for
an unknown colormap name (carrying the offending name).
`fileNotFoundError` is raised by load_matrix_from_file (matrix_viz.py line
87).  `configurationError` has NO counterpart anywhere in the sources or in
the libraries they call: it exists only so that the specification's words
"fails with ConfigurationError" can be stated and compared against what the
code actually raises. -/
inductive PyError where
  | keyError : String → PyError
  | fileNotFoundError : String → PyError
  | configurationError : String → PyError
deriving DecidableEq

/-- The message text of an exception, as interpolated by
f"Error updating colormap: {e}" (matrix_viz.py line 260). -/
def PyError.message : PyError → String
  | .keyError s => s
  | .fileNotFoundError s => s
  | .configurationError s => s

/-- The state of a CustomInteractorStyle object together with the position of
its image actor.  Fields mirror the attributes set in __init__ (both files,
lines 17-21 / 24-28) plus the actor position set by SetPosition.  `has_actor`
is the Python truthiness of self.image_actor; `pos` is the actor's (x, y)
position (the z coordinate, present only in matrix_viz.py, is 0 initially and
is never changed by any handler, so it is omitted).  Event positions returned
by GetEventPosition are integer pixel coordinates. -/
structure ViewState where
  pan_mode : Bool
  last_x : ℤ
  last_y : ℤ
  has_actor : Bool
  pos : ℤ × ℤ
  zoom_level : ℚ
deriving DecidableEq

/-- The interaction events the two CustomInteractorStyle classes observe
(both files), plus the reset_view trigger of matrix_viz.py. -/
inductive Event where
  | leftButtonDown (x y : ℤ)
  | leftButtonUp
  | mouseMove (x y : ℤ)
  | mouseWheelForward
  | mouseWheelBackward
  | resetView
deriving DecidableEq

namespace matrix_gen

/-- matrix_gen.py, generate_matrix, lines 63-70 (block phase).
Entry (r, c) of the matrix after the community-block loop.
`cs` is community_size = size // num_communities, `nc` is num_communities,
`cd` is community_density.
`u k a b` is the oracle value of the draw np.random.random((cs, cs))[a][b]
made for community block k.  The loop writes, for each k < nc, the block
np.triu(block, 1) + np.triu(block, 1).T (block[a][b] = (draw < cd)) into the
square region [k*cs, (k+1)*cs) x [k*cs, (k+1)*cs); regions of distinct k are
disjoint, and entries outside every region keep their np.zeros value 0.
An entry (r, c) lies in the region of k iff r / cs = k < nc and c / cs = k,
and then its in-block coordinates are (r % cs, c % cs). -/
def blockPhase (nc cs : ℕ) (cd : ℚ) (u : ℕ → ℕ → ℕ → ℚ) (r c : ℕ) : ℕ :=
  if cs = 0 then 0
  else if r / cs < nc ∧ c / cs = r / cs then
    (if r % cs < c % cs then (if u (r / cs) (r % cs) (c % cs) < cd then 1 else 0)
     else if c % cs < r % cs then (if u (r / cs) (c % cs) (r % cs) < cd then 1 else 0)
     else 0)
  else 0

/-- matrix_gen.py, generate_matrix, lines 71-72: the index pairs (i, j) with
i < j < size visited by `for i in range(size): for j in range(i+1, size)`. -/
def interPairs (size : ℕ) : List (ℕ × ℕ) :=
  (List.range size).flatMap fun i =>
    ((List.range size).drop (i + 1)).map fun j => (i, j)

/-- matrix_gen.py, generate_matrix, lines 73-74: one iteration of the
inter-community loop body, acting on the matrix (as a total function on
indices).  `v i j` is the oracle value of the np.random.random() call made at
pair (i, j); `icd` is inter_community_density.  When i and j fall in distinct
communities and the draw succeeds, matrix[i, j] = matrix[j, i] = 1. -/
def interStep (cs : ℕ) (icd : ℚ) (v : ℕ → ℕ → ℚ) (m : ℕ → ℕ → ℕ)
    (p : ℕ × ℕ) : ℕ → ℕ → ℕ :=
  if p.1 / cs ≠ p.2 / cs ∧ v p.1 p.2 < icd then
    fun r c => if (r = p.1 ∧ c = p.2) ∨ (r = p.2 ∧ c = p.1) then 1 else m r c
  else m

/-- The matrix (as a function on indices) after both loops of
generate_matrix. -/
def finalFun (size nc : ℕ) (cd icd : ℚ)
    (u : ℕ → ℕ → ℕ → ℚ) (v : ℕ → ℕ → ℚ) : ℕ → ℕ → ℕ :=
  (interPairs size).foldl (interStep (size / nc) icd v)
    (blockPhase nc (size / nc) cd u)

/-- matrix_gen.py, lines 62-75: generate_matrix(size, num_communities,
community_density, inter_community_density), with the random draws supplied
by the oracles `u` (block phase) and `v` (inter-community phase).
Returns none exactly when the Python code raises ZeroDivisionError:
`size // num_communities` (line 64) with num_communities = 0, or
`i // community_size` (line 73) with community_size = 0, which is evaluated
iff the inner loop body runs at least once, i.e. iff size >= 2.  Otherwise
returns the final numpy array as a list of rows. -/
def generate_matrix (size num_communities : ℕ) (cd icd : ℚ)
    (u : ℕ → ℕ → ℕ → ℚ) (v : ℕ → ℕ → ℚ) : Option (List (List ℕ)) :=
  if num_communities = 0 then none
  else if size / num_communities = 0 ∧ 2 ≤ size then none
  else some ((List.range size).map fun r =>
    (List.range size).map fun c => finalFun size num_communities cd icd u v r c)

/-- Entry (i, j) of a matrix represented as a list of rows (0 outside). -/
def entryAt (M : List (List ℕ)) (i j : ℕ) : ℕ :=
  (M.getD i []).getD j 0

/-- The adjacency-matrix invariant: zero diagonal, symmetric, 0/1 entries. -/
def MatInv (m : ℕ → ℕ → ℕ) : Prop :=
  (∀ i, m i i = 0) ∧ (∀ i j, m i j = m j i) ∧ (∀ i j, m i j = 0 ∨ m i j = 1)

/-- matrix_gen.py, lines 44-47 (OnMouseWheelForward): when an image actor is
set, multiply zoom_level by 1.2 (then _update_zoom copies it to the actor
scale); otherwise do nothing. -/
def OnMouseWheelForward (s : ViewState) : ViewState :=
  if s.has_actor then { s with zoom_level := s.zoom_level * 1.2 } else s

/-- matrix_gen.py, lines 49-52 (OnMouseWheelBackward): divide zoom_level by
1.2 when an image actor is set. -/
def OnMouseWheelBackward (s : ViewState) : ViewState :=
  if s.has_actor then { s with zoom_level := s.zoom_level / 1.2 } else s

/-- The style state right after __init__ (lines 17-21) and SetImageActor
(lines 23-25): no panning, anchor (0, 0), actor present at position (0, 0),
zoom_level 1.0. -/
def initStyle : ViewState :=
  { pan_mode := false, last_x := 0, last_y := 0, has_actor := true,
    pos := (0, 0), zoom_level := 1.0 }

/-- generate_matrix 7 3 1 1 (fun _ _ _ => 0) (fun _ _ => 2): community
density 1 with all block draws 0 fills the three 2x2 blocks; inter draws 2
never beat density 1, and row/column 6 (= 3 * (7 // 3)) is the remainder. -/
def exM : List (List ℕ) :=
  [[0, 1, 0, 0, 0, 0, 0], [1, 0, 0, 0, 0, 0, 0], [0, 0, 0, 1, 0, 0, 0],
   [0, 0, 1, 0, 0, 0, 0], [0, 0, 0, 0, 0, 1, 0], [0, 0, 0, 0, 1, 0, 0],
   [0, 0, 0, 0, 0, 0, 0]]

/-- generate_matrix 7 3 0 1 (fun _ _ _ => 1) (fun _ _ => 2): density 0 keeps
every block empty, so the whole matrix is zero. -/
def exM' : List (List ℕ) :=
  [[0, 0, 0, 0, 0, 0, 0], [0, 0, 0, 0, 0, 0, 0], [0, 0, 0, 0, 0, 0, 0],
   [0, 0, 0, 0, 0, 0, 0], [0, 0, 0, 0, 0, 0, 0], [0, 0, 0, 0, 0, 0, 0],
   [0, 0, 0, 0, 0, 0, 0]]

end matrix_gen

namespace matrix_viz

/-- matrix_viz.py, lines 36-39 (OnLeftButtonDown): enter pan mode and record
the event position as the anchor. -/
def OnLeftButtonDown (s : ViewState) (x y : ℤ) : ViewState :=
  { s with pan_mode := true, last_x := x, last_y := y }

/-- matrix_viz.py, lines 41-43 (OnLeftButtonUp): leave pan mode. -/
def OnLeftButtonUp (s : ViewState) : ViewState :=
  { s with pan_mode := false }

/-- matrix_viz.py, lines 45-54 (OnMouseMove): while panning with an actor
set, translate the actor by the pointer delta (y inverted for VTK's
coordinate system) and move the anchor; otherwise do nothing. -/
def OnMouseMove (s : ViewState) (x y : ℤ) : ViewState :=
  if s.pan_mode && s.has_actor then
    { s with pos := (s.pos.1 + (x - s.last_x), s.pos.2 - (y - s.last_y)),
             last_x := x, last_y := y }
  else s

/-- matrix_viz.py, lines 56-60 (OnMouseWheelForward): zoom in by the factor
1.2, clamped above at 5.0 (`min(5.0, self.zoom_level * 1.2)`), when an actor
is set. -/
def OnMouseWheelForward (s : ViewState) : ViewState :=
  if s.has_actor then { s with zoom_level := min 5.0 (s.zoom_level * 1.2) }
  else s

/-- matrix_viz.py, lines 62-66 (OnMouseWheelBackward): zoom out by the factor
1.2, clamped below at 0.1 (`max(0.1, self.zoom_level / 1.2)`), when an actor
is set. -/
def OnMouseWheelBackward (s : ViewState) : ViewState :=
  if s.has_actor then { s with zoom_level := max 0.1 (s.zoom_level / 1.2) }
  else s

/-- matrix_viz.py, lines 75-80 (ResetView): when an actor is set, restore
zoom_level 1.0 and actor position (0, 0, 0). -/
def ResetView (s : ViewState) : ViewState :=
  if s.has_actor then { s with zoom_level := 1.0, pos := (0, 0) } else s

/-- Dispatch of one observed event to its handler (the AddObserver
registrations of __init__, lines 18-22, plus the reset_view trigger that
calls ResetView, lines 273-275). -/
def handleEvent (s : ViewState) : Event → ViewState
  | .leftButtonDown x y => OnLeftButtonDown s x y
  | .leftButtonUp => OnLeftButtonUp s
  | .mouseMove x y => OnMouseMove s x y
  | .mouseWheelForward => OnMouseWheelForward s
  | .mouseWheelBackward => OnMouseWheelBackward s
  | .resetView => ResetView s

/-- A whole interaction history, run left to right. -/
def handleEvents (s : ViewState) (es : List Event) : ViewState :=
  es.foldl handleEvent s

/-- The style state right after __init__ (lines 24-28) and SetImageActor
(lines 30-34). -/
def initStyle : ViewState :=
  { pan_mode := false, last_x := 0, last_y := 0, has_actor := true,
    pos := (0, 0), zoom_level := 1.0 }

/-- matplotlib.colors.Normalize(vmin, vmax) applied to a value:
(x - vmin) / (vmax - vmin).  matrix_viz.py line 103 instantiates it with the
fixed range vmin = 0, vmax = 1 regardless of the data range. -/
def Normalize (vmin vmax x : ℚ) : ℚ :=
  (x - vmin) / (vmax - vmin)

/-- matrix_viz.py, lines 111-114: the RGB triple chosen for matrix entry
(i, j).  `cmap x` models `(colormap(x) * 255).astype(np.uint8)[:3]`, the
byte-valued RGB of the named matplotlib colormap at normalized value x
(line 106).  Entries > 0 go through the colormap at Normalize 0 1 of the
value; all other entries get the fixed light-gray background (245, 245, 245). -/
def pixelOf (cmap : ℚ → ℕ × ℕ × ℕ) (m : ℕ → ℕ → ℚ) (i j : ℕ) : ℕ × ℕ × ℕ :=
  if 0 < m i j then cmap (Normalize 0 1 (m i j)) else (245, 245, 245)

/-- One SetScalarComponentFromDouble group (lines 116-118): store the RGB
triple at image coordinate (x, y) (the code writes components 0, 1, 2 of
pixel (j, i, 0) separately; the triple is stored at once here). -/
def setPixel (img : ℕ × ℕ → ℕ × ℕ × ℕ) (x y : ℕ) (rgb : ℕ × ℕ × ℕ) :
    ℕ × ℕ → ℕ × ℕ × ℕ :=
  fun q => if q = (x, y) then rgb else img q

/-- The index pairs (i, j) visited by the population loop
`for i in range(size): for j in range(size)` (lines 109-110). -/
def gridPairs (size : ℕ) : List (ℕ × ℕ) :=
  (List.range size).flatMap fun i => (List.range size).map fun j => (i, j)

/-- matrix_viz.py, lines 108-118: the vtkImageData contents after the
population loop.  Pixel (x, y) = (j, i) receives the color of matrix entry
(i, j); AllocateScalars leaves the buffer uninitialized, modeled as all
(0, 0, 0) (every in-range pixel is overwritten by the loop). -/
def pipelineImage (cmap : ℚ → ℕ × ℕ × ℕ) (m : ℕ → ℕ → ℚ) (size : ℕ) :
    ℕ × ℕ → ℕ × ℕ × ℕ :=
  (gridPairs size).foldl
    (fun img p => setPixel img p.2 p.1 (pixelOf cmap m p.1 p.2))
    (fun _ => (0, 0, 0))

/-- A vtkImageActor holding its vtkImageData (lines 120-121). -/
structure ImageActor where
  image : ℕ × ℕ → ℕ × ℕ × ℕ
  size : ℕ

/-- A vtkRenderer with its actors and background color (lines 123-125). -/
structure Renderer where
  actors : List ImageActor
  background : ℚ × ℚ × ℚ

/-- A vtkRenderWindow with its renderers (lines 127-128). -/
structure RenderWindow where
  renderers : List Renderer

/-- matrix_viz.py, lines 93-130: create_vtk_pipeline(matrix, colormap_name).
`registry` models the matplotlib colormap registry `colormaps`: it yields the
byte-valued RGB map of a known name and none for an unknown one, in which
case the lookup `colormaps[colormap_name]` (line 102) raises KeyError and the
exception propagates out of the function.  The matrix is given as its entry
function `m` and its shape[0] `size`.  On success the function returns the
(actor, renderer, render_window) triple. -/
def create_vtk_pipeline (registry : String → Option (ℚ → ℕ × ℕ × ℕ))
    (m : ℕ → ℕ → ℚ) (size : ℕ) (colormap_name : String) :
    Except PyError (ImageActor × Renderer × RenderWindow) :=
  match registry colormap_name with
  | none => .error (.keyError colormap_name)
  | some colormap =>
    .ok (⟨pipelineImage colormap m size, size⟩,
         ⟨[⟨pipelineImage colormap m size, size⟩], (1, 1, 1)⟩,
         ⟨[⟨[⟨pipelineImage colormap m size, size⟩], (1, 1, 1)⟩]⟩)

/-- Whether a create_vtk_pipeline outcome is the ConfigurationError the
specification speaks of.  No code path can produce it (the constructor
`PyError.configurationError` is never used by the embedding, because no such
exception class exists in the sources or in matplotlib). -/
def isConfigurationError :
    Except PyError (ImageActor × Renderer × RenderWindow) → Bool
  | .error (.configurationError _) => true
  | _ => false

/-- The variables closed over by the update_colormap_name handler: the
nonlocal actor / renderer / render_window bindings (line 252), the reactive
`state.loading` flag, and the log output so far. -/
structure ColormapClosure where
  actor : ImageActor
  renderer : Renderer
  render_window : RenderWindow
  loading : Bool
  log : List String

/-- matrix_viz.py, lines 250-263: the colormap-change handler.
state.loading is set to True, create_vtk_pipeline is attempted with the new
name, and on success the three nonlocal bindings are replaced by the new
triple; on any exception the error is logged (logger.error) and the bindings
are left untouched, since the exception is raised before the tuple
assignment happens.  The finally block always clears state.loading. -/
def update_colormap_name (registry : String → Option (ℚ → ℕ × ℕ × ℕ))
    (m : ℕ → ℕ → ℚ) (size : ℕ) (st : ColormapClosure)
    (colormap_name : String) : ColormapClosure :=
  match create_vtk_pipeline registry m size colormap_name with
  | .ok (a, r, w) =>
    { st with actor := a, renderer := r, render_window := w, loading := false }
  | .error e =>
    { st with loading := false,
              log := st.log ++ ["Error updating colormap: " ++ e.message] }

/-- The fields of the statistics text built by calculate_matrix_stats. -/
structure MatrixStats where
  size : ℕ
  total_edges : ℤ
  density : ℚ
  num_communities : ℕ

/-- np.sum of a size x size matrix of floats. -/
def matrixSum (m : ℕ → ℕ → ℚ) (size : ℕ) : ℚ :=
  ((List.range size).map fun i => ((List.range size).map fun j => m i j).sum).sum

/-- matrix_viz.py, lines 132-145: calculate_matrix_stats(matrix).
total_edges = np.sum(matrix) // 2 (floor division on floats);
max_possible_edges = (size * (size - 1)) // 2 (integer division);
density = total_edges / max_possible_edges (rational division here; for a
1 x 1 matrix the Python code divides a numpy scalar by zero, which yields
nan rather than raising — the density field is not meaningful there);
num_communities = size // 20, computed from the dimension alone.
The function formats these four values into the statistics text. -/
def calculate_matrix_stats (m : ℕ → ℕ → ℚ) (size : ℕ) : MatrixStats :=
  { size := size
    total_edges := Int.floor (matrixSum m size / 2)
    density := (Int.floor (matrixSum m size / 2) : ℚ) / ((size * (size - 1)) / 2 : ℕ)
    num_communities := size / 20 }

/-- The five lines printed by the usage branch of the __main__ block
(lines 289-293). -/
def usage_message : List String :=
  ["Usage: python3 matrix_viz.py <matrix_file>",
   "Examples:",
   "  python3 matrix_viz.py matrix_100.txt",
   "  python3 matrix_viz.py matrix_500.txt",
   "  python3 matrix_viz.py matrix_1000.txt"]

/-- The two lines printed when the named matrix file does not exist
(lines 299-300; the first line quotes the file name). -/
def missing_file_message (matrix_file : String) : List String :=
  ["Error: Matrix file " ++ matrix_file ++ " not found.",
   "Please run matrix_gen.py first to generate the matrix files."]

/-- What the process did: everything printed, the sys.exit code if any, and
whether the trame server (the UI) was started. -/
structure MainOutcome where
  printed : List String
  exit_code : Option ℕ
  ui_started : Bool

/-- matrix_viz.py, lines 287-304: the __main__ block.  sys.argv (including
the script name at index 0) must have exactly 2 elements, else usage is
printed and sys.exit(1) runs; then os.path.exists(matrix_file) is checked
(`file_exists` models the file system), and on a missing file an error is
printed and sys.exit(1) runs.  Only when both checks pass are setup_server
and server.start() reached. -/
def main_block (argv : List String) (file_exists : String → Bool) :
    MainOutcome :=
  if argv.length ≠ 2 then
    { printed := usage_message, exit_code := some 1, ui_started := false }
  else if file_exists (argv.getD 1 "") = false then
    { printed := missing_file_message (argv.getD 1 ""),
      exit_code := some 1, ui_started := false }
  else
    { printed := [], exit_code := none, ui_started := true }

/-- A concrete stand-in colormap (any byte-RGB function works). -/
def cmap0 : ℚ → ℕ × ℕ × ℕ :=
  fun x => if 0 < x then (200, 100, 50) else (255, 255, 204)

/-- A concrete one-entry colormap registry knowing only "YlOrRd". -/
def reg0 : String → Option (ℚ → ℕ × ℕ × ℕ) :=
  fun n => if n = "YlOrRd" then some cmap0 else none

/-- A concrete 2 x 2 matrix: the path graph 0 - 1. -/
def m0 : ℕ → ℕ → ℚ :=
  fun i j => if i = j then 0 else 1

/-- A concrete closure state for the colormap-change handler. -/
def st0 : ColormapClosure :=
  { actor := ⟨fun _ => (0, 0, 0), 2⟩
    renderer := ⟨[⟨fun _ => (0, 0, 0), 2⟩], (1, 1, 1)⟩
    render_window := ⟨[]⟩
    loading := false
    log := [] }

end matrix_viz

/-! ## Lemmas and theorems -/

namespace matrix_gen

lemma blockPhase_inv (nc cs : ℕ) (cd : ℚ) (u : ℕ → ℕ → ℕ → ℚ) :
    MatInv (blockPhase nc cs cd u) := by
  refine ⟨fun i => ?_, fun i j => ?_, fun i j => ?_⟩
  · unfold blockPhase
    split_ifs <;> omega
  · by_cases hne : cs = 0
    · simp [blockPhase, hne]
    by_cases hsame : j / cs = i / cs
    · rw [blockPhase, blockPhase, if_neg hne, if_neg hne, hsame]
      split_ifs <;> omega
    · have c1 : ¬ (i / cs < nc ∧ j / cs = i / cs) := fun hh => hsame hh.2
      have c2 : ¬ (j / cs < nc ∧ i / cs = j / cs) := fun hh => hsame hh.2.symm
      rw [blockPhase, blockPhase, if_neg hne, if_neg hne, if_neg c1, if_neg c2]
  · unfold blockPhase
    split_ifs <;> simp

lemma interStep_inv (cs : ℕ) (icd : ℚ) (v : ℕ → ℕ → ℚ) (m : ℕ → ℕ → ℕ)
    (p : ℕ × ℕ) (hm : MatInv m) : MatInv (interStep cs icd v m p) := by
  obtain ⟨hd, hs, hv⟩ := hm
  unfold interStep
  split_ifs with h
  · refine ⟨fun i => ?_, fun i j => ?_, fun i j => ?_⟩
    · have : ¬ ((i = p.1 ∧ i = p.2) ∨ (i = p.2 ∧ i = p.1)) := by
        rintro (⟨h1, h2⟩ | ⟨h1, h2⟩)
        · exact h.1 (by rw [h1.symm.trans h2])
        · exact h.1 (by rw [h2.symm.trans h1])
      simp [this, hd i]
    · by_cases hij : (i = p.1 ∧ j = p.2) ∨ (i = p.2 ∧ j = p.1)
      · have hji : (j = p.1 ∧ i = p.2) ∨ (j = p.2 ∧ i = p.1) := by tauto
        simp [hij, hji]
      · have hji : ¬ ((j = p.1 ∧ i = p.2) ∨ (j = p.2 ∧ i = p.1)) := by tauto
        simp [hij, hji, hs i j]
    · by_cases hij : (i = p.1 ∧ j = p.2) ∨ (i = p.2 ∧ j = p.1)
      · simp [hij]
      · simp [hij, hv i j]
  · exact ⟨hd, hs, hv⟩

lemma foldl_interStep_inv (cs : ℕ) (icd : ℚ) (v : ℕ → ℕ → ℚ)
    (l : List (ℕ × ℕ)) (m : ℕ → ℕ → ℕ) (hm : MatInv m) :
    MatInv (l.foldl (interStep cs icd v) m) := by
  induction l generalizing m with
  | nil => exact hm
  | cons p t ih => exact ih _ (interStep_inv cs icd v m p hm)

lemma finalFun_inv (size nc : ℕ) (cd icd : ℚ) (u : ℕ → ℕ → ℕ → ℚ)
    (v : ℕ → ℕ → ℚ) : MatInv (finalFun size nc cd icd u v) :=
  foldl_interStep_inv _ icd v _ _ (blockPhase_inv nc _ cd u)

lemma entryAt_map_range (f : ℕ → ℕ → ℕ) (size i j : ℕ)
    (hi : i < size) (hj : j < size) :
    entryAt ((List.range size).map fun r => (List.range size).map fun c => f r c)
      i j = f i j := by
  have hrow : ((List.range size).map fun r =>
      (List.range size).map fun c => f r c).getD i []
      = (List.range size).map fun c => f i c := by
    rw [List.getD_eq_getElem?_getD, List.getElem?_map, List.getElem?_range hi]
    rfl
  unfold entryAt
  rw [hrow, List.getD_eq_getElem?_getD, List.getElem?_map, List.getElem?_range hj]
  rfl

/-- C1: every matrix returned by generate_matrix — any size ≥ 1,
num_communities ≥ 1, any densities in [0, 1] (indeed any arguments and any
random draws at all) — is square of side `size`, every diagonal entry is 0,
entry (i, j) equals entry (j, i) for all indices, and every entry is 0 or 1. -/
theorem generate_matrix_adjacency_invariants
    (size nc : ℕ) (cd icd : ℚ) (u : ℕ → ℕ → ℕ → ℚ) (v : ℕ → ℕ → ℚ)
    (M : List (List ℕ))
    (h : generate_matrix size nc cd icd u v = some M) :
    M.length = size ∧ (∀ row ∈ M, row.length = size) ∧
    (∀ i, i < size → entryAt M i i = 0) ∧
    (∀ i j, i < size → j < size → entryAt M i j = entryAt M j i) ∧
    (∀ i j, i < size → j < size → entryAt M i j = 0 ∨ entryAt M i j = 1) := by
  unfold generate_matrix at h
  split_ifs at h with h1 h2
  replace h := Option.some.inj h
  subst h
  obtain ⟨hd, hs, hv⟩ := finalFun_inv size nc cd icd u v
  refine ⟨by simp, ?_, ?_, ?_, ?_⟩
  · intro row hrow
    simp only [List.mem_map, List.mem_range] at hrow
    obtain ⟨r, -, rfl⟩ := hrow
    simp
  · intro i hi
    rw [entryAt_map_range _ size i i hi hi]
    exact hd i
  · intro i j hi hj
    rw [entryAt_map_range _ size i j hi hj, entryAt_map_range _ size j i hj hi]
    exact hs i j
  · intro i j hi hj
    rw [entryAt_map_range _ size i j hi hj]
    exact hv i j

/-- Concrete output of generate_matrix 4 2 1 1 (fun _ _ _ => 0)
(fun _ _ => 2): two full 2 x 2 community blocks, no inter-community edges. -/
theorem generate_matrix_adjacency_invariants_witness :
    generate_matrix 4 2 1 1 (fun _ _ _ => 0) (fun _ _ => 2)
      = some [[0, 1, 0, 0], [1, 0, 0, 0], [0, 0, 0, 1], [0, 0, 1, 0]] ∧
    ([[0, 1, 0, 0], [1, 0, 0, 0], [0, 0, 0, 1], [0, 0, 1, 0]].length = 4 ∧
     (∀ row ∈ [[0, 1, 0, 0], [1, 0, 0, 0], [0, 0, 0, 1], [0, 0, 1, 0]],
        row.length = 4) ∧
     (∀ i, i < 4 →
        entryAt [[0, 1, 0, 0], [1, 0, 0, 0], [0, 0, 0, 1], [0, 0, 1, 0]] i i = 0) ∧
     (∀ i j, i < 4 → j < 4 →
        entryAt [[0, 1, 0, 0], [1, 0, 0, 0], [0, 0, 0, 1], [0, 0, 1, 0]] i j
          = entryAt [[0, 1, 0, 0], [1, 0, 0, 0], [0, 0, 0, 1], [0, 0, 1, 0]] j i) ∧
     (∀ i j, i < 4 → j < 4 →
        entryAt [[0, 1, 0, 0], [1, 0, 0, 0], [0, 0, 0, 1], [0, 0, 1, 0]] i j = 0 ∨
        entryAt [[0, 1, 0, 0], [1, 0, 0, 0], [0, 0, 0, 1], [0, 0, 1, 0]] i j = 1)) :=
  ⟨by decide,
   generate_matrix_adjacency_invariants 4 2 1 1 (fun _ _ _ => 0) (fun _ _ => 2)
     [[0, 1, 0, 0], [1, 0, 0, 0], [0, 0, 0, 1], [0, 0, 1, 0]] (by decide)⟩

lemma blockPhase_remainder (nc cs : ℕ) (cd : ℚ) (u : ℕ → ℕ → ℕ → ℚ)
    (r c : ℕ) (hr : nc * cs ≤ r) : blockPhase nc cs cd u r c = 0 := by
  by_cases hcs : cs = 0
  · simp [blockPhase, hcs]
  · have hcond : ¬ (r / cs < nc ∧ c / cs = r / cs) := by
      rintro ⟨hlt, -⟩
      have : nc ≤ r / cs := (Nat.le_div_iff_mul_le (Nat.pos_of_ne_zero hcs)).mpr hr
      omega
    rw [blockPhase, if_neg hcs, if_neg hcond]

lemma interStep_congr_at (cs : ℕ) (icd : ℚ) (v : ℕ → ℕ → ℚ)
    (m m' : ℕ → ℕ → ℕ) (p : ℕ × ℕ) (r c : ℕ) (hm : m r c = m' r c) :
    interStep cs icd v m p r c = interStep cs icd v m' p r c := by
  unfold interStep
  split_ifs with h
  · by_cases hit : (r = p.1 ∧ c = p.2) ∨ (r = p.2 ∧ c = p.1)
    · simp [hit]
    · simp [hit, hm]
  · exact hm

lemma foldl_interStep_congr_at (cs : ℕ) (icd : ℚ) (v : ℕ → ℕ → ℚ)
    (l : List (ℕ × ℕ)) (m m' : ℕ → ℕ → ℕ) (r c : ℕ) (hm : m r c = m' r c) :
    l.foldl (interStep cs icd v) m r c = l.foldl (interStep cs icd v) m' r c := by
  induction l generalizing m m' with
  | nil => exact hm
  | cons p t ih => exact ih _ _ (interStep_congr_at cs icd v m m' p r c hm)

/-- C8: when size is not divisible by num_communities, the remainder indices
(those ≥ num_communities * (size // num_communities)) are assigned to no
community block: the block phase leaves every entry in a remainder row 0, and
consequently the generated matrix, at any pair of remainder indices, is
independent of community_density and of all intra-block draws. -/
theorem generate_matrix_remainder_rows_no_block
    (size nc : ℕ) (hsz : 1 ≤ size) (hnc : 1 ≤ nc) (hdvd : ¬ nc ∣ size) :
    (∀ (cd : ℚ) (u : ℕ → ℕ → ℕ → ℚ) (r c : ℕ),
        nc * (size / nc) ≤ r → blockPhase nc (size / nc) cd u r c = 0) ∧
    (∀ (cd cd' icd : ℚ) (u u' : ℕ → ℕ → ℕ → ℚ) (v : ℕ → ℕ → ℚ)
        (M M' : List (List ℕ)),
        generate_matrix size nc cd icd u v = some M →
        generate_matrix size nc cd' icd u' v = some M' →
        ∀ r c, nc * (size / nc) ≤ r → nc * (size / nc) ≤ c →
          r < size → c < size → entryAt M r c = entryAt M' r c) := by
  constructor
  · exact fun cd u r c hr => blockPhase_remainder nc _ cd u r c hr
  · intro cd cd' icd u u' v M M' hM hM' r c hr hc hrs hcs
    unfold generate_matrix at hM hM'
    split_ifs at hM hM' with h1 h2
    replace hM := Option.some.inj hM
    replace hM' := Option.some.inj hM'
    subst hM
    subst hM'
    rw [entryAt_map_range _ size r c hrs hcs, entryAt_map_range _ size r c hrs hcs]
    unfold finalFun
    refine foldl_interStep_congr_at _ icd v _ _ _ r c ?_
    rw [blockPhase_remainder nc _ cd u r c hr, blockPhase_remainder nc _ cd' u' r c hr]

/-- Witness for C8 at size 7, 3 communities (community_size 2, remainder
index 6), with concretely decided draws. -/
theorem generate_matrix_remainder_rows_no_block_witness :
    blockPhase 3 (7 / 3) 1 (fun _ _ _ => 0) 6 0 = 0 ∧
    entryAt exM 6 6 = entryAt exM' 6 6 := by
  have h := generate_matrix_remainder_rows_no_block 7 3 (by decide) (by decide)
    (by decide)
  exact ⟨h.1 1 (fun _ _ _ => 0) 6 0 (by decide),
         h.2 1 0 1 (fun _ _ _ => 0) (fun _ _ _ => 1) (fun _ _ => 2) exM exM'
           (by decide) (by decide) 6 6 (by decide) (by decide) (by decide)
           (by decide)⟩

/-- C7: in the unclamped variant (matrix_gen), for every view state with a
positive zoom_level, a wheel-forward event followed by a wheel-backward event
returns zoom_level exactly to its prior value, since over exact rational
arithmetic (z * 1.2) / 1.2 = z. -/
theorem wheel_forward_backward_roundtrip (s : ViewState)
    (hz : 0 < s.zoom_level) :
    (OnMouseWheelBackward (OnMouseWheelForward s)).zoom_level = s.zoom_level := by
  by_cases ha : s.has_actor
  · simp only [OnMouseWheelForward, OnMouseWheelBackward, ha, if_true]
    rw [mul_div_assoc]
    norm_num
  · simp [OnMouseWheelForward, OnMouseWheelBackward, ha]

/-- Witness for C7 at the initial style state (zoom_level 1.0 > 0). -/
theorem wheel_forward_backward_roundtrip_witness :
    0 < initStyle.zoom_level ∧
    (OnMouseWheelBackward (OnMouseWheelForward initStyle)).zoom_level
      = initStyle.zoom_level :=
  ⟨by norm_num [initStyle],
   wheel_forward_backward_roundtrip initStyle (by norm_num [initStyle])⟩

end matrix_gen

namespace matrix_viz

lemma handleEvent_has_actor (s : ViewState) (e : Event) :
    (handleEvent s e).has_actor = s.has_actor := by
  cases e <;>
    simp only [handleEvent, OnLeftButtonDown, OnLeftButtonUp, OnMouseMove,
      OnMouseWheelForward, OnMouseWheelBackward, ResetView] <;>
    first
      | rfl
      | (split_ifs <;> rfl)

lemma handleEvents_has_actor (s : ViewState) (es : List Event) :
    (handleEvents s es).has_actor = s.has_actor := by
  induction es generalizing s with
  | nil => rfl
  | cons e t ih =>
    show (handleEvents (handleEvent s e) t).has_actor = s.has_actor
    rw [ih, handleEvent_has_actor]

lemma handleEvent_zoom_bounds (s : ViewState) (e : Event)
    (h : 0.1 ≤ s.zoom_level ∧ s.zoom_level ≤ 5.0) :
    0.1 ≤ (handleEvent s e).zoom_level ∧ (handleEvent s e).zoom_level ≤ 5.0 := by
  obtain ⟨hl, hu⟩ := h
  cases e with
  | leftButtonDown x y => exact ⟨hl, hu⟩
  | leftButtonUp => exact ⟨hl, hu⟩
  | mouseMove x y =>
    simp only [handleEvent, OnMouseMove]
    split_ifs <;> exact ⟨hl, hu⟩
  | mouseWheelForward =>
    simp only [handleEvent, OnMouseWheelForward]
    split_ifs with ha
    · refine ⟨le_min (by norm_num) (by linarith), min_le_left _ _⟩
    · exact ⟨hl, hu⟩
  | mouseWheelBackward =>
    simp only [handleEvent, OnMouseWheelBackward]
    split_ifs with ha
    · refine ⟨le_max_left _ _, max_le (by norm_num) ?_⟩
      have hdiv : s.zoom_level / 1.2 = s.zoom_level * (5 / 6) := by
        rw [div_eq_mul_inv]
        norm_num
      rw [hdiv]
      linarith
    · exact ⟨hl, hu⟩
  | resetView =>
    simp only [handleEvent, ResetView]
    split_ifs with ha
    · exact ⟨by norm_num, by norm_num⟩
    · exact ⟨hl, hu⟩

lemma handleEvents_zoom_bounds (es : List Event) (s : ViewState)
    (h : 0.1 ≤ s.zoom_level ∧ s.zoom_level ≤ 5.0) :
    0.1 ≤ (handleEvents s es).zoom_level ∧ (handleEvents s es).zoom_level ≤ 5.0 := by
  induction es generalizing s with
  | nil => exact h
  | cons e t ih => exact ih (handleEvent s e) (handleEvent_zoom_bounds s e h)

/-- C3: in matrix_viz, a wheel-forward event multiplies zoom_level by 1.2,
clamped above at 5.0 (min), and a wheel-backward event divides it by 1.2,
clamped below at 0.1 (max); along every sequence of interaction events
(wheel, reset and the rest) started from the initial zoom_level 1.0 the
zoom_level stays within [0.1, 5.0].  In matrix_gen the same multiplication
and division by 1.2 apply with no clamp. -/
theorem wheel_zoom_factor_and_clamp :
    (∀ s : ViewState, s.has_actor = true →
        (OnMouseWheelForward s).zoom_level = min 5.0 (s.zoom_level * 1.2) ∧
        (OnMouseWheelBackward s).zoom_level = max 0.1 (s.zoom_level / 1.2)) ∧
    (∀ es : List Event,
        0.1 ≤ (handleEvents initStyle es).zoom_level ∧
        (handleEvents initStyle es).zoom_level ≤ 5.0) ∧
    (∀ s : ViewState, s.has_actor = true →
        (matrix_gen.OnMouseWheelForward s).zoom_level = s.zoom_level * 1.2 ∧
        (matrix_gen.OnMouseWheelBackward s).zoom_level = s.zoom_level / 1.2) := by
  refine ⟨fun s ha => ?_, fun es => ?_, fun s ha => ?_⟩
  · simp [OnMouseWheelForward, OnMouseWheelBackward, ha]
  · exact handleEvents_zoom_bounds es initStyle ⟨by norm_num [initStyle], by norm_num [initStyle]⟩
  · simp [matrix_gen.OnMouseWheelForward, matrix_gen.OnMouseWheelBackward, ha]

/-- Witness for C3 at the initial style states of both variants. -/
theorem wheel_zoom_factor_and_clamp_witness :
    (OnMouseWheelForward initStyle).zoom_level
      = min 5.0 (initStyle.zoom_level * 1.2) ∧
    (matrix_gen.OnMouseWheelForward matrix_gen.initStyle).zoom_level
      = matrix_gen.initStyle.zoom_level * 1.2 :=
  ⟨(wheel_zoom_factor_and_clamp.1 initStyle rfl).1,
   (wheel_zoom_factor_and_clamp.2.2 matrix_gen.initStyle rfl).1⟩

/-- C4: after any sequence of press / move / release / wheel / reset events
from the initial view state, invoking ResetView leaves zoom_level 1.0 and the
actor position (pan offset) at (0, 0). -/
theorem ResetView_restores_initial_view (es : List Event) :
    (ResetView (handleEvents initStyle es)).zoom_level = 1.0 ∧
    (ResetView (handleEvents initStyle es)).pos = (0, 0) := by
  have ha : (handleEvents initStyle es).has_actor = true :=
    handleEvents_has_actor initStyle es
  simp [ResetView, ha]

lemma mem_gridPairs (size i j : ℕ) :
    (i, j) ∈ gridPairs size ↔ i < size ∧ j < size := by
  simp [gridPairs]

lemma foldl_setPixel_eq (cmap : ℚ → ℕ × ℕ × ℕ) (m : ℕ → ℕ → ℚ)
    (l : List (ℕ × ℕ)) (img : ℕ × ℕ → ℕ × ℕ × ℕ) (x y : ℕ) :
    (l.foldl (fun im p => setPixel im p.2 p.1 (pixelOf cmap m p.1 p.2)) img) (x, y)
      = if (y, x) ∈ l then pixelOf cmap m y x else img (x, y) := by
  induction l generalizing img with
  | nil => simp
  | cons p t ih =>
    obtain ⟨pi, pj⟩ := p
    rw [List.foldl_cons, ih]
    by_cases hmem : (y, x) ∈ t
    · simp [hmem]
    · simp only [hmem, if_false, List.mem_cons, or_false]
      by_cases heq : ((y, x) : ℕ × ℕ) = (pi, pj)
      · rw [Prod.mk.injEq] at heq
        obtain ⟨h1, h2⟩ := heq
        subst h1
        subst h2
        simp [setPixel]
      · have hne : ¬ (((x, y) : ℕ × ℕ) = (pj, pi)) := by
          intro hh
          rw [Prod.mk.injEq] at hh
          exact heq (by rw [Prod.mk.injEq]; exact ⟨hh.2, hh.1⟩)
        simp [setPixel, heq, hne]

lemma pipelineImage_apply (cmap : ℚ → ℕ × ℕ × ℕ) (m : ℕ → ℕ → ℚ)
    (size i j : ℕ) (hi : i < size) (hj : j < size) :
    pipelineImage cmap m size (j, i) = pixelOf cmap m i j := by
  rw [pipelineImage, foldl_setPixel_eq,
    if_pos ((mem_gridPairs size i j).mpr ⟨hi, hj⟩)]

/-- C5: with a known scale name, create_vtk_pipeline returns the actor whose
pixel grid gives every cell with value > 0 the color obtained by normalizing
the value into the fixed range [0, 1] (matplotlib Normalize(vmin=0, vmax=1))
and applying the named scale, and gives every cell with value 0 the fixed
background (245, 245, 245) — the same under every color scale.  Pixel (j, i)
displays matrix entry (i, j). -/
theorem create_vtk_pipeline_pixel_policy
    (registry : String → Option (ℚ → ℕ × ℕ × ℕ)) (m : ℕ → ℕ → ℚ)
    (size : ℕ) (colormap_name : String) (cmap : ℚ → ℕ × ℕ × ℕ)
    (hreg : registry colormap_name = some cmap) :
    (∃ renderer window, create_vtk_pipeline registry m size colormap_name
        = .ok (⟨pipelineImage cmap m size, size⟩, renderer, window)) ∧
    (∀ i j, i < size → j < size →
      (0 < m i j →
        pipelineImage cmap m size (j, i) = cmap (Normalize 0 1 (m i j))) ∧
      (m i j = 0 → ∀ cmap' : ℚ → ℕ × ℕ × ℕ,
        pipelineImage cmap' m size (j, i) = (245, 245, 245))) := by
  constructor
  · exact ⟨⟨[⟨pipelineImage cmap m size, size⟩], (1, 1, 1)⟩,
      ⟨[⟨[⟨pipelineImage cmap m size, size⟩], (1, 1, 1)⟩]⟩,
      by simp only [create_vtk_pipeline, hreg]⟩
  · intro i j hi hj
    constructor
    · intro hpos
      rw [pipelineImage_apply cmap m size i j hi hj, pixelOf, if_pos hpos]
    · intro hzero cmap'
      rw [pipelineImage_apply cmap' m size i j hi hj, pixelOf,
        if_neg (by rw [hzero]; exact lt_irrefl 0)]

/-- Witness for C5: the registry reg0 knows "YlOrRd"; on the 2 x 2 path
matrix m0 the pixel of entry (0, 1) > 0 gets the colormap value and the
diagonal pixel of entry (0, 0) = 0 gets the background under cmap0 as well. -/
theorem create_vtk_pipeline_pixel_policy_witness :
    reg0 "YlOrRd" = some cmap0 ∧
    pipelineImage cmap0 m0 2 (1, 0) = cmap0 (Normalize 0 1 (m0 0 1)) ∧
    pipelineImage cmap0 m0 2 (0, 0) = (245, 245, 245) := by
  have h := create_vtk_pipeline_pixel_policy reg0 m0 2 "YlOrRd" cmap0 rfl
  refine ⟨rfl, ?_, ?_⟩
  · exact (h.2 0 1 (by norm_num) (by norm_num)).1 (by norm_num [m0])
  · exact (h.2 0 0 (by norm_num) (by norm_num)).2 (by norm_num [m0]) cmap0

/-- C2 counterexample: at the unknown scale name "nope" (with a registry
knowing only "YlOrRd"), create_vtk_pipeline fails with the registry lookup
KeyError; the outcome is not a ConfigurationError — no such exception class
exists anywhere in the code, so the claim's named error is wrong. -/
theorem create_vtk_pipeline_unknown_scale_not_configurationError :
    create_vtk_pipeline reg0 m0 2 "nope"
      = .error (.keyError "nope") ∧
    isConfigurationError (create_vtk_pipeline reg0 m0 2 "nope") = false := by
  constructor
  · simp [create_vtk_pipeline, reg0]
  · simp [create_vtk_pipeline, reg0, isConfigurationError]

/-- C2 (amended): calling create_vtk_pipeline with a scale name the colormap
registry does not know fails, by raising the registry lookup KeyError (the
code has no ConfigurationError). -/
theorem create_vtk_pipeline_unknown_scale_fails
    (registry : String → Option (ℚ → ℕ × ℕ × ℕ)) (m : ℕ → ℕ → ℚ)
    (size : ℕ) (colormap_name : String)
    (h : registry colormap_name = none) :
    create_vtk_pipeline registry m size colormap_name
      = .error (.keyError colormap_name) := by
  simp only [create_vtk_pipeline, h]

/-- Witness for the amended C2 at the concrete registry reg0 and name
"nope". -/
theorem create_vtk_pipeline_unknown_scale_fails_witness :
    reg0 "nope" = none ∧
    create_vtk_pipeline reg0 m0 2 "nope" = .error (.keyError "nope") :=
  ⟨rfl, create_vtk_pipeline_unknown_scale_fails reg0 m0 2 "nope" rfl⟩

/-- C6: when the colormap-change handler is invoked with a name unknown to
the registry, create_vtk_pipeline raises, the handler logs the error and the
prior actor / renderer / render_window bindings are retained unchanged (and
the finally block clears state.loading). -/
theorem update_colormap_name_unknown_retains_bindings
    (registry : String → Option (ℚ → ℕ × ℕ × ℕ)) (m : ℕ → ℕ → ℚ)
    (size : ℕ) (st : ColormapClosure) (colormap_name : String)
    (h : registry colormap_name = none) :
    (update_colormap_name registry m size st colormap_name).actor = st.actor ∧
    (update_colormap_name registry m size st colormap_name).renderer
      = st.renderer ∧
    (update_colormap_name registry m size st colormap_name).render_window
      = st.render_window ∧
    (update_colormap_name registry m size st colormap_name).log
      = st.log ++ ["Error updating colormap: " ++ colormap_name] ∧
    (update_colormap_name registry m size st colormap_name).loading = false := by
  simp [update_colormap_name, create_vtk_pipeline, h, PyError.message]

/-- Witness for C6 at the concrete closure state st0, registry reg0 and name
"nope". -/
theorem update_colormap_name_unknown_retains_bindings_witness :
    reg0 "nope" = none ∧
    (update_colormap_name reg0 m0 2 st0 "nope").actor = st0.actor ∧
    (update_colormap_name reg0 m0 2 st0 "nope").log
      = st0.log ++ ["Error updating colormap: " ++ "nope"] := by
  have h := update_colormap_name_unknown_retains_bindings reg0 m0 2 st0 "nope" rfl
  exact ⟨rfl, h.1, h.2.2.2.1⟩

/-- C9: the __main__ block of matrix_viz.py exits with code 1 printing the
usage message whenever sys.argv does not have exactly 2 entries, and exits
with code 1 printing a file error when the named matrix file does not exist;
in both cases the UI (trame server) is never started. -/
theorem main_block_fails_fast (argv : List String)
    (file_exists : String → Bool) :
    (argv.length ≠ 2 →
      main_block argv file_exists =
        { printed := usage_message, exit_code := some 1, ui_started := false }) ∧
    (argv.length = 2 → file_exists (argv.getD 1 "") = false →
      main_block argv file_exists =
        { printed := missing_file_message (argv.getD 1 ""),
          exit_code := some 1, ui_started := false }) := by
  constructor
  · intro h
    rw [main_block, if_pos h]
  · intro h2 hf
    rw [main_block, if_neg (fun hh => hh h2), if_pos hf]

/-- Witness for C9: one missing argument, and a present argument naming a
file absent from the (empty) file system. -/
theorem main_block_fails_fast_witness :
    main_block ["matrix_viz.py"] (fun _ => false) =
      { printed := usage_message, exit_code := some 1, ui_started := false } ∧
    main_block ["matrix_viz.py", "matrix_100.txt"] (fun _ => false) =
      { printed := missing_file_message "matrix_100.txt",
        exit_code := some 1, ui_started := false } :=
  ⟨(main_block_fails_fast ["matrix_viz.py"] (fun _ => false)).1 (by decide),
   (main_block_fails_fast ["matrix_viz.py", "matrix_100.txt"]
      (fun _ => false)).2 rfl rfl⟩

/-- C10: calculate_matrix_stats reports "Number of Communities" as
size // 20: a function of the matrix dimension alone, independent of the
matrix entries (and hence of whatever num_communities generated the
matrix). -/
theorem calculate_matrix_stats_num_communities (m : ℕ → ℕ → ℚ) (size : ℕ) :
    (calculate_matrix_stats m size).num_communities = size / 20 ∧
    (∀ m' : ℕ → ℕ → ℚ, (calculate_matrix_stats m' size).num_communities
      = (calculate_matrix_stats m size).num_communities) :=
  ⟨rfl, fun _ => rfl⟩

end matrix_viz
